import Mathlib

/-!
# Verification of the correlation engine (`algorithms/correlation.py`)

Shallow embedding of `CorrelationCalculator` from `src/algorithms/correlation.py`.

Modelling conventions:
* A calendar date is an integer day number (`Int`); an ISO-formatted date string
  (`strftime("%Y-%m-%d")`) compares lexicographically exactly as the underlying
  day number compares, so date ordering facts are stated on day numbers.
* A Python `datetime` is a day number plus seconds past midnight (`PyDateTime`);
  a value that may be a `datetime` or a bare `date` is `PyDateLike`
  (the code checks `isinstance(x, datetime)` to cover both).
* A price is an exact rational (`ℚ`).  A pandas cell that may hold NaN is an
  `Option ℚ`, `none` standing for NaN.
* A fetched price series is the list of `(date, adjusted close)` pairs, ordered
  by date, as produced by `yf.download(...)["Adj Close"]`.
* The external `yf.download` call is an oracle argument: for each
  (ticker, start, end) query it either raises (`FetchOutcome.raised msg`) or
  yields a table that may or may not have the `Adj Close` column and may be
  empty (`FetchOutcome.table hasAdjClose rows`).
* Python exceptions are the `Except String` monad; all errors in the source are
  `ValueError`s distinguished only by their message string, so an error value
  is its message.
* `pd.concat([s1, s2], axis=1)` is the outer join of the two date indices:
  the sorted union of the dates, with `none` cells where a series lacks a date.
* `DataFrame.pct_change()` (pandas default `fill_method='pad'`) forward-fills
  each column and then takes `cur/prev - 1` per row; the first row (and any
  leading-NaN rows) are NaN.  A previous price of zero would give ±inf/NaN in
  pandas; prices are positive in every concrete instance considered here and
  the zero-previous cell is modelled as undefined.
* `round(x, k)` is modelled as exact rational rounding to `k` decimal places
  (`roundTo`); float representation error and tie-breaking (banker's rounding)
  are below the resolution of every property proved here.
-/

namespace QuantSandbox

/-- A Python `datetime`: a day number plus seconds past midnight. -/
structure PyDateTime where
  day : Int
  secs : Nat
  deriving DecidableEq, Repr

/-- An argument that may be a Python `datetime` or a bare `date`
(the source checks `isinstance(x, datetime)` to handle both). -/
inductive PyDateLike where
  | dt (d : PyDateTime)
  | d (day : Int)
  deriving DecidableEq, Repr

/-- `x.date() if isinstance(x, datetime) else x`: normalize to a calendar date
(the day number), discarding time-of-day. -/
def PyDateLike.toDateVal : PyDateLike → Int
  | .dt x => x.day
  | .d day => day

/-- `x - timedelta(days=n)`: subtracting a whole-day timedelta keeps the
time-of-day of a `datetime` and maps a `date` to a `date`. -/
def PyDateLike.subDays : PyDateLike → Int → PyDateLike
  | .dt x, n => .dt ⟨x.day - n, x.secs⟩
  | .d day, n => .d (day - n)

/-- Outcome of the external `yf.download(ticker, start, end)` call:
either the call raises, or it returns a table (possibly empty, possibly
without the `Adj Close` column; `rows` is that column when present). -/
inductive FetchOutcome where
  | raised (msg : String)
  | table (hasAdjClose : Bool) (rows : List (Int × ℚ))
  deriving DecidableEq, Repr

/-- `CorrelationCalculator.fetch_stock_data`: inside `try`, raise
`"No data found for ticker {t}"` when the table is empty or lacks
`Adj Close`, otherwise return the column; the `except` clause catches every
exception — including the just-raised one — and re-raises
`"Error fetching data for {t}: {e}"`. -/
def fetch_stock_data (ticker : String) (src : FetchOutcome) :
    Except String (List (Int × ℚ)) :=
  match src with
  | .raised msg => .error ("Error fetching data for " ++ ticker ++ ": " ++ msg)
  | .table hasAdjClose rows =>
    if rows.isEmpty || !hasAdjClose then
      .error ("Error fetching data for " ++ ticker ++ ": " ++
        ("No data found for ticker " ++ ticker))
    else
      .ok rows

/-- Insert a date into a sorted duplicate-free date list, keeping it sorted
and duplicate-free. -/
def insertDate (d : Int) : List Int → List Int
  | [] => [d]
  | x :: xs =>
    if d < x then d :: x :: xs
    else if d = x then x :: xs
    else x :: insertDate d xs

/-- The sorted union of a list of dates: the index of the outer join that
`pd.concat(..., axis=1)` performs on two date-indexed series. -/
def sortedUnion (ds : List Int) : List Int := ds.foldr insertDate []

/-- Look a date up in a price series (`none` = the series has no row there,
i.e. the outer join leaves a NaN cell). -/
def lookupD (s : List (Int × ℚ)) (d : Int) : Option ℚ :=
  (s.find? (fun p => p.1 = d)).map Prod.snd

/-- `pd.concat([stock1_data, stock2_data], axis=1)`: one row per date of the
union of the two indices, with a `none` cell where a series lacks the date. -/
def combinedData (s1 s2 : List (Int × ℚ)) : List (Int × Option ℚ × Option ℚ) :=
  (sortedUnion (s1.map Prod.fst ++ s2.map Prod.fst)).map
    (fun d => (d, lookupD s1 d, lookupD s2 d))

/-- Forward-fill of a column, as pandas `pct_change`'s default
`fill_method='pad'` applies before differencing. -/
def ffill (prev : Option ℚ) : List (Option ℚ) → List (Option ℚ)
  | [] => []
  | none :: cs => prev :: ffill prev cs
  | some x :: cs => some x :: ffill (some x) cs

/-- One `pct_change` cell: `cur/prev - 1`, NaN when there is no previous
value (first row / leading NaN).  A zero previous price (impossible for
positive prices) is modelled as undefined. -/
def pctCell (prev cur : Option ℚ) : Option ℚ :=
  match prev, cur with
  | some p, some x => if p = 0 then none else some ((x - p) / p)
  | _, _ => none

/-- `Series.pct_change()` on one column: forward-fill, then divide each row
by the previous one. -/
def pctChangeCol (vals : List (Option ℚ)) : List (Option ℚ) :=
  List.zipWith pctCell (none :: ffill none vals) (ffill none vals)

/-- `combined_data.pct_change()`: per-column percentage change, keeping the
date index. -/
def returnsTable (c : List (Int × Option ℚ × Option ℚ)) :
    List (Int × Option ℚ × Option ℚ) :=
  List.zipWith (fun d p => (d, p)) (c.map Prod.fst)
    (List.zip (pctChangeCol (c.map (fun r => r.2.1)))
      (pctChangeCol (c.map (fun r => r.2.2))))

/-- `returns.dropna()`: keep exactly the rows in which both cells are
defined; the surviving rows are NaN-free by construction. -/
def dropna (rows : List (Int × Option ℚ × Option ℚ)) : List (Int × ℚ × ℚ) :=
  rows.filterMap (fun r =>
    match r with
    | (d, some x, some y) => some (d, x, y)
    | _ => none)

/-- Mean of a list of rationals (0 on the empty list, as `0 / 0 = 0`). -/
def mean (xs : List ℚ) : ℚ := xs.sum / (xs.length : ℚ)

/-- `Series.cov(other)`: sample covariance with `ddof = 1` over the aligned
pairs (both columns of the cleaned returns have the same index). -/
def covS (xs ys : List ℚ) : ℚ :=
  (List.zipWith (fun x y => (x - mean xs) * (y - mean ys)) xs ys).sum /
    ((xs.length : ℚ) - 1)

/-- Sample variance with `ddof = 1` (the square of the standard deviation
entering Pearson correlation). -/
def varS (xs : List ℚ) : ℚ := covS xs xs

/-- `round(q, k)`: rounding to `k` decimal places, modelled exactly on ℚ. -/
def roundTo (k : Nat) (q : ℚ) : ℚ := ((round (q * 10 ^ k) : ℤ) : ℚ) / 10 ^ k

/-- The successful result dictionary of `CorrelationCalculator.calculate`,
minus the `correlation` entry, whose value is the real number
`resultCorrelation` (Pearson r involves a square root, hence is kept as a
separate real-valued field accessor; see `resultCorrelation`).  `returns1` /
`returns2` are the two cleaned return columns the statistics are computed
from (carried so that the correlation entry is determined by the record). -/
structure CalcData where
  covariance : ℚ
  start_date : Int
  end_date : Int
  ticker1 : String
  ticker2 : String
  data_points : Nat
  first_date : Int
  last_date : Int
  trading_days : Nat
  returns1 : List ℚ
  returns2 : List ℚ
  deriving DecidableEq, Repr

/-- Steps 4–8 of `CorrelationCalculator.calculate`, after the two fetches
(whose outcomes are passed in): align, compute returns, drop NaN rows, check
sufficiency, check the statistics for NaN, assemble the result.  Pearson
correlation is NaN exactly when one of the sample variances is zero (the
returns are NaN-free and there are at least 2 of them, so the covariance —
and hence `pd.isna(covariance)` — can never be NaN there). -/
def calcFromFetches (ticker1 ticker2 : String) (start_date_val end_date_val : Int)
    (fetch1 fetch2 : Except String (List (Int × ℚ))) : Except String CalcData :=
  match fetch1 with
  | .error m => .error m
  | .ok stock1_data =>
    match fetch2 with
    | .error m => .error m
    | .ok stock2_data =>
      let combined_data := combinedData stock1_data stock2_data
      let returns := dropna (returnsTable combined_data)
      if returns.length < 2 then
        .error "Insufficient data points for correlation calculation"
      else
        let xs := returns.map (fun r => r.2.1)
        let ys := returns.map (fun r => r.2.2)
        if varS xs = 0 ∨ varS ys = 0 then
          .error "Calculation resulted in NaN values"
        else
          .ok { covariance := roundTo 6 (covS xs ys)
                start_date := start_date_val
                end_date := end_date_val
                ticker1 := ticker1
                ticker2 := ticker2
                data_points := returns.length
                first_date := (returns.map Prod.fst).headD 0
                last_date := (returns.map Prod.fst).getLastD 0
                trading_days := combined_data.length
                returns1 := xs
                returns2 := ys }

/-- Step 1 of `calculate`: `end_date = end_date or datetime.now()`. -/
def endUsed (endOpt : Option PyDateLike) (now : PyDateTime) : PyDateLike :=
  endOpt.getD (.dt now)

/-- Step 1 of `calculate`:
`start_date = start_date or (end_date - timedelta(days=365))`. -/
def startUsed (startOpt endOpt : Option PyDateLike) (now : PyDateTime) : PyDateLike :=
  startOpt.getD ((endUsed endOpt now).subDays 365)

/-- `CorrelationCalculator.calculate` before its top-level `except` clause:
date defaulting, normalization to calendar dates for the metadata, the two
fetches with the un-normalized values, then `calcFromFetches`. -/
def calculateRaw (ticker1 ticker2 : String) (start_date end_date : Option PyDateLike)
    (now : PyDateTime) (src : String → PyDateLike → PyDateLike → FetchOutcome) :
    Except String CalcData :=
  let startU := startUsed start_date end_date now
  let endU := endUsed end_date now
  calcFromFetches ticker1 ticker2 startU.toDateVal endU.toDateVal
    (fetch_stock_data ticker1 (src ticker1 startU endU))
    (fetch_stock_data ticker2 (src ticker2 startU endU))

/-- `CorrelationCalculator.calculate`: the whole pipeline inside
`try: ... except Exception as e: raise ValueError(f"Calculation error: {e}")`. -/
def calculate (ticker1 ticker2 : String) (start_date end_date : Option PyDateLike)
    (now : PyDateTime) (src : String → PyDateLike → PyDateLike → FetchOutcome) :
    Except String CalcData :=
  match calculateRaw ticker1 ticker2 start_date end_date now src with
  | .error m => .error ("Calculation error: " ++ m)
  | .ok r => .ok r

/-- Pearson correlation `returns[t1].corr(returns[t2])` as a real number:
sample covariance over the product of the sample standard deviations. -/
noncomputable def pearsonCorr (xs ys : List ℚ) : ℝ :=
  (covS xs ys : ℝ) / (Real.sqrt (varS xs) * Real.sqrt (varS ys))

/-- `round(x, k)` on a real value. -/
noncomputable def roundToR (k : Nat) (x : ℝ) : ℝ :=
  ((round (x * 10 ^ k) : ℤ) : ℝ) / 10 ^ k

/-- The `correlation` entry of the result dictionary:
`round(float(correlation), 4)`. -/
noncomputable def resultCorrelation (r : CalcData) : ℝ :=
  roundToR 4 (pearsonCorr r.returns1 r.returns2)

/-! ## Structural lemmas about the alignment pipeline -/

lemma ffill_length (p : Option ℚ) (l : List (Option ℚ)) : (ffill p l).length = l.length := by
  induction l generalizing p with
  | nil => rfl
  | cons c cs ih => cases c <;> simp [ffill, ih]

lemma pctChangeCol_length (l : List (Option ℚ)) : (pctChangeCol l).length = l.length := by
  simp [pctChangeCol, List.length_zipWith, ffill_length]

lemma returnsTable_length (c : List (Int × Option ℚ × Option ℚ)) :
    (returnsTable c).length = c.length := by
  simp [returnsTable, List.length_zipWith, List.length_zip, pctChangeCol_length]

lemma zipWith_pair_map_fst {α β : Type} (ds : List α) (ps : List β)
    (h : ds.length = ps.length) :
    (List.zipWith (fun d p => (d, p)) ds ps).map Prod.fst = ds := by
  induction ds generalizing ps with
  | nil => rfl
  | cons d ds ih =>
    cases ps with
    | nil => simp at h
    | cons p ps => simpa using ih ps (by simpa using h)

lemma returnsTable_map_fst (c : List (Int × Option ℚ × Option ℚ)) :
    (returnsTable c).map Prod.fst = c.map Prod.fst := by
  unfold returnsTable
  rw [zipWith_pair_map_fst]
  simp [List.length_zip, pctChangeCol_length]

/-- A row survives `dropna` exactly when both of its cells are defined. -/
lemma mem_dropna (rows : List (Int × Option ℚ × Option ℚ)) (d : Int) (x y : ℚ) :
    (d, x, y) ∈ dropna rows ↔ (d, some x, some y) ∈ rows := by
  unfold dropna
  rw [List.mem_filterMap]
  constructor
  · rintro ⟨⟨a, b, c⟩, hmem, heq⟩
    rcases b with _ | b <;> rcases c with _ | c <;> simp_all
  · intro hmem
    exact ⟨(d, some x, some y), hmem, rfl⟩

lemma dropna_length_le (rows : List (Int × Option ℚ × Option ℚ)) :
    (dropna rows).length ≤ rows.length := by
  unfold dropna
  exact List.length_filterMap_le _ _

lemma dropna_map_fst_sublist (rows : List (Int × Option ℚ × Option ℚ)) :
    List.Sublist ((dropna rows).map Prod.fst) (rows.map Prod.fst) := by
  induction rows with
  | nil => simp [dropna]
  | cons r rs ih =>
    rcases r with ⟨a, b, c⟩
    rcases b with _ | b <;> rcases c with _ | c <;>
      simp only [dropna, List.filterMap_cons] at * <;>
      simp only [List.map_cons] <;>
      first
        | exact ih.cons _
        | exact ih.cons₂ _

lemma mem_insertDate (y d : Int) (l : List Int) :
    y ∈ insertDate d l ↔ y = d ∨ y ∈ l := by
  induction l with
  | nil => simp [insertDate]
  | cons x xs ih =>
    by_cases h1 : d < x
    · simp [insertDate, h1]
    · by_cases h2 : d = x
      · subst h2
        simp only [insertDate, h1, if_false, if_pos rfl]
        constructor
        · intro h; exact Or.inr h
        · rintro (rfl | h) <;> simp_all
      · simp only [insertDate, h1, h2, if_false, List.mem_cons, ih]
        tauto

lemma pairwise_insertDate (d : Int) (l : List Int)
    (h : l.Pairwise (· < ·)) : (insertDate d l).Pairwise (· < ·) := by
  induction l with
  | nil => simp [insertDate]
  | cons x xs ih =>
    rcases List.pairwise_cons.mp h with ⟨hx, hxs⟩
    by_cases h1 : d < x
    · simp only [insertDate, if_pos h1]
      exact List.pairwise_cons.mpr ⟨by
        intro y hy
        rcases List.mem_cons.mp hy with rfl | hy
        · exact h1
        · exact h1.trans (hx y hy), h⟩
    · by_cases h2 : d = x
      · subst h2; simpa [insertDate, h1] using h
      · have hxd : x < d := lt_of_le_of_ne (not_lt.mp h1) (fun he => h2 he.symm)
        simp only [insertDate, if_neg h1, if_neg h2]
        exact List.pairwise_cons.mpr ⟨by
          intro y hy
          rcases (mem_insertDate y d xs).mp hy with rfl | hy
          · exact hxd
          · exact hx y hy, ih hxs⟩

lemma sortedUnion_pairwise (ds : List Int) : (sortedUnion ds).Pairwise (· < ·) := by
  unfold sortedUnion
  induction ds with
  | nil => simp
  | cons d ds ih => exact pairwise_insertDate d _ ih

lemma mem_sortedUnion (y : Int) (ds : List Int) : y ∈ sortedUnion ds ↔ y ∈ ds := by
  unfold sortedUnion
  induction ds with
  | nil => simp
  | cons d ds ih => simp only [List.foldr_cons, mem_insertDate, ih, List.mem_cons]

lemma headD_mem {α : Type} (l : List α) (d : α) (h : l ≠ []) : l.headD d ∈ l := by
  cases l with
  | nil => exact absurd rfl h
  | cons a t => simp

lemma getLastD_mem {α : Type} (l : List α) (d : α) (h : l ≠ []) : l.getLastD d ∈ l := by
  cases l with
  | nil => exact absurd rfl h
  | cons a t =>
    have : (a :: t).getLastD d = (a :: t).getLast (List.cons_ne_nil a t) := by
      rw [List.getLastD_eq_getLast?, List.getLast?_eq_getLast_of_ne_nil (List.cons_ne_nil a t)]
      rfl
    rw [this]
    exact List.getLast_mem _

lemma sorted_headD_le_getLastD (l : List Int) (hs : l.Pairwise (· < ·)) (h : l ≠ []) :
    l.headD 0 ≤ l.getLastD 0 := by
  cases l with
  | nil => exact absurd rfl h
  | cons a t =>
    have hmem : (a :: t).getLastD 0 ∈ a :: t := getLastD_mem _ _ (List.cons_ne_nil a t)
    rcases List.mem_cons.mp hmem with he | hm
    · rw [he]
      simp
    · rcases List.pairwise_cons.mp hs with ⟨ha, _⟩
      exact le_of_lt (ha _ hm)

/-- The first row of the returns table is NaN in both columns: a percentage
change needs a previous period. -/
lemma returnsTable_cons (r : Int × Option ℚ × Option ℚ)
    (rest : List (Int × Option ℚ × Option ℚ)) :
    ∃ t, returnsTable (r :: rest) = (r.1, none, none) :: t := by
  rcases r with ⟨d, b, c⟩
  rcases b with _ | b <;> rcases c with _ | c <;> exact ⟨_, rfl⟩

/-- After the returns diff, `dropna` always loses at least the first aligned
row: on a nonempty aligned table, cleaned length + 1 ≤ aligned length. -/
lemma dropna_returnsTable_length (c : List (Int × Option ℚ × Option ℚ)) (h : c ≠ []) :
    (dropna (returnsTable c)).length + 1 ≤ c.length := by
  cases c with
  | nil => exact absurd rfl h
  | cons r rest =>
    rcases returnsTable_cons r rest with ⟨t, ht⟩
    have hlen : t.length = rest.length := by
      have := returnsTable_length (r :: rest)
      rw [ht] at this
      simpa using this
    rw [ht]
    have hdrop : dropna ((r.1, none, none) :: t) = dropna t := rfl
    rw [hdrop]
    have hle : (dropna t).length ≤ t.length := dropna_length_le t
    simp only [List.length_cons]
    omega

/-! ## Statistics lemmas -/

lemma sum_zipWith_mul (a b : List ℚ) :
    (List.zipWith (· * ·) a b).sum =
      ∑ i in Finset.range (min a.length b.length), a.getD i 0 * b.getD i 0 := by
  induction a generalizing b with
  | nil => simp
  | cons x a ih =>
    cases b with
    | nil => simp
    | cons y b =>
      simp only [List.zipWith_cons_cons, List.sum_cons, List.length_cons,
        Nat.succ_min_succ, Finset.sum_range_succ']
      rw [ih b]
      simp [List.getD_cons_succ, List.getD_cons_zero, add_comm]

lemma list_cauchy_schwarz (a b : List ℚ) (h : a.length = b.length) :
    ((List.zipWith (· * ·) a b).sum) ^ 2 ≤
      (List.zipWith (· * ·) a a).sum * (List.zipWith (· * ·) b b).sum := by
  rw [sum_zipWith_mul a b, sum_zipWith_mul a a, sum_zipWith_mul b b]
  rw [min_self, min_self, ← h, min_self]
  have := Finset.sum_mul_sq_le_sq_mul_sq (Finset.range a.length)
    (fun i => a.getD i 0) (fun i => b.getD i 0)
  calc (∑ i in Finset.range a.length, a.getD i 0 * b.getD i 0) ^ 2
      ≤ (∑ i in Finset.range a.length, (a.getD i 0) ^ 2) *
          (∑ i in Finset.range a.length, (b.getD i 0) ^ 2) := this
    _ = (∑ i in Finset.range a.length, a.getD i 0 * a.getD i 0) *
          (∑ i in Finset.range a.length, b.getD i 0 * b.getD i 0) := by
        simp [sq]

/-- The centered-products sum of `covS` as a plain product of centered lists. -/
lemma covS_eq (xs ys : List ℚ) :
    covS xs ys = (List.zipWith (· * ·) (xs.map (· - mean xs)) (ys.map (· - mean ys))).sum /
      ((xs.length : ℚ) - 1) := by
  unfold covS
  rw [List.zipWith_map (· * ·) (· - mean xs) (· - mean ys) xs ys]

lemma covS_sq_le_varS_mul (xs ys : List ℚ) (h : xs.length = ys.length) :
    (covS xs ys) ^ 2 ≤ varS xs * varS ys := by
  unfold varS
  rw [covS_eq xs ys, covS_eq xs xs, covS_eq ys ys]
  set a := xs.map (· - mean xs) with ha
  set b := ys.map (· - mean ys) with hb
  set d : ℚ := (xs.length : ℚ) - 1 with hd
  have hyd : ((ys.length : ℚ) - 1) = d := by rw [hd, h]
  rw [hyd]
  have hab : a.length = b.length := by simp [ha, hb, h]
  have hcs : ((List.zipWith (· * ·) a b).sum) ^ 2 ≤
      (List.zipWith (· * ·) a a).sum * (List.zipWith (· * ·) b b).sum :=
    list_cauchy_schwarz a b hab
  rw [div_pow, div_mul_div_comm, ← pow_two d]
  exact div_le_div_of_nonneg_right hcs (sq_nonneg d)

lemma varS_nonneg (xs : List ℚ) : 0 ≤ varS xs := by
  unfold varS
  rw [covS_eq xs xs]
  have hnum : 0 ≤ (List.zipWith (· * ·) (xs.map (· - mean xs)) (xs.map (· - mean xs))).sum := by
    rw [List.zipWith_same]
    apply List.sum_nonneg
    intro x hx
    rcases List.mem_map.mp hx with ⟨y, _, rfl⟩
    exact mul_self_nonneg _
  rcases Nat.eq_zero_or_pos xs.length with h0 | hpos
  · rw [List.length_eq_zero.mp h0]
    simp [covS]
  · have : (0 : ℚ) ≤ (xs.length : ℚ) - 1 := by
      have : (1 : ℚ) ≤ (xs.length : ℚ) := by exact_mod_cast hpos
      linarith
    exact div_nonneg hnum this

lemma roundR_mono {x y : ℝ} (h : x ≤ y) : round x ≤ round y := by
  rw [round_eq, round_eq]
  exact Int.floor_mono (by linarith)

/-- Rounding to 4 decimal places keeps a value of absolute value at most 1
inside [-1, 1]. -/
lemma roundToR_abs_le (x : ℝ) (h : |x| ≤ 1) : |roundToR 4 x| ≤ 1 := by
  rcases abs_le.mp h with ⟨hlo, hhi⟩
  have hcast : ((10 : ℝ) ^ 4) = ((10 ^ 4 : ℤ) : ℝ) := by norm_num
  have hup : round (x * 10 ^ 4) ≤ 10 ^ 4 := by
    have : x * 10 ^ 4 ≤ ((10 ^ 4 : ℤ) : ℝ) := by
      rw [← hcast]
      nlinarith
    calc round (x * 10 ^ 4) ≤ round (((10 ^ 4 : ℤ) : ℝ)) := roundR_mono this
      _ = 10 ^ 4 := round_intCast _
  have hdown : (-(10 ^ 4) : ℤ) ≤ round (x * 10 ^ 4) := by
    have : ((-(10 ^ 4) : ℤ) : ℝ) ≤ x * 10 ^ 4 := by
      push_cast
      nlinarith
    calc (-(10 ^ 4) : ℤ) = round (((-(10 ^ 4) : ℤ) : ℝ)) := (round_intCast _).symm
      _ ≤ round (x * 10 ^ 4) := roundR_mono this
  rw [abs_le]
  unfold roundToR
  constructor
  · rw [le_div_iff₀ (by norm_num : (0:ℝ) < 10 ^ 4)]
    calc (-1 : ℝ) * 10 ^ 4 = ((-(10 ^ 4) : ℤ) : ℝ) := by push_cast; ring
      _ ≤ _ := by exact_mod_cast hdown
  · rw [div_le_iff₀ (by norm_num : (0:ℝ) < 10 ^ 4)]
    calc ((round (x * 10 ^ 4) : ℤ) : ℝ) ≤ ((10 ^ 4 : ℤ) : ℝ) := by exact_mod_cast hup
      _ = 1 * 10 ^ 4 := by push_cast; ring

/-- Pearson correlation of two equal-length NaN-free return columns with
nonzero variances lies in [-1, 1]. -/
lemma pearson_abs_le_one (xs ys : List ℚ) (h : xs.length = ys.length)
    (hx : varS xs ≠ 0) (hy : varS ys ≠ 0) : |pearsonCorr xs ys| ≤ 1 := by
  have hvx : (0 : ℚ) < varS xs := (varS_nonneg xs).lt_of_ne (Ne.symm hx)
  have hvy : (0 : ℚ) < varS ys := (varS_nonneg ys).lt_of_ne (Ne.symm hy)
  have hvxR : (0 : ℝ) < (varS xs : ℝ) := by exact_mod_cast hvx
  have hvyR : (0 : ℝ) < (varS ys : ℝ) := by exact_mod_cast hvy
  have hsx : (0 : ℝ) < Real.sqrt (varS xs) := Real.sqrt_pos.mpr hvxR
  have hsy : (0 : ℝ) < Real.sqrt (varS ys) := Real.sqrt_pos.mpr hvyR
  have hden : (0 : ℝ) < Real.sqrt (varS xs) * Real.sqrt (varS ys) := mul_pos hsx hsy
  unfold pearsonCorr
  rw [abs_div, abs_of_pos hden, div_le_one hden]
  have hsq : ((covS xs ys : ℝ)) ^ 2 ≤ (varS xs : ℝ) * (varS ys : ℝ) := by
    have := covS_sq_le_varS_mul xs ys h
    exact_mod_cast this
  calc |(covS xs ys : ℝ)|
      = Real.sqrt (((covS xs ys : ℝ)) ^ 2) := (Real.sqrt_sq_eq_abs _).symm
    _ ≤ Real.sqrt ((varS xs : ℝ) * (varS ys : ℝ)) := Real.sqrt_le_sqrt hsq
    _ = Real.sqrt (varS xs) * Real.sqrt (varS ys) := Real.sqrt_mul hvxR.le _

/-! ## Success inversion -/

/-- The cleaned `returns` table of `calculate`, as a function of the two
fetched price series (steps 4-5 of the pipeline). -/
def returnsOf (s1 s2 : List (Int × ℚ)) : List (Int × ℚ × ℚ) :=
  dropna (returnsTable (combinedData s1 s2))

/-- The `returns[ticker1]` column of the cleaned returns. -/
def column1 (rets : List (Int × ℚ × ℚ)) : List ℚ := rets.map (fun row => row.2.1)

/-- The `returns[ticker2]` column of the cleaned returns. -/
def column2 (rets : List (Int × ℚ × ℚ)) : List ℚ := rets.map (fun row => row.2.2)

/-- Inversion of a successful `calculate` run: both fetches succeeded, at
least 2 cleaned return rows remained, both variances are nonzero, and the
result record is exactly the assembled dictionary. -/
lemma calculate_ok_inv (t1 t2 : String) (sOpt eOpt : Option PyDateLike)
    (now : PyDateTime) (src : String → PyDateLike → PyDateLike → FetchOutcome)
    (r : CalcData) (h : calculate t1 t2 sOpt eOpt now src = .ok r) :
    ∃ s1 s2,
      fetch_stock_data t1 (src t1 (startUsed sOpt eOpt now) (endUsed eOpt now)) = .ok s1 ∧
      fetch_stock_data t2 (src t2 (startUsed sOpt eOpt now) (endUsed eOpt now)) = .ok s2 ∧
      2 ≤ (returnsOf s1 s2).length ∧
      varS (column1 (returnsOf s1 s2)) ≠ 0 ∧
      varS (column2 (returnsOf s1 s2)) ≠ 0 ∧
      r = { covariance := roundTo 6 (covS (column1 (returnsOf s1 s2)) (column2 (returnsOf s1 s2)))
            start_date := (startUsed sOpt eOpt now).toDateVal
            end_date := (endUsed eOpt now).toDateVal
            ticker1 := t1
            ticker2 := t2
            data_points := (returnsOf s1 s2).length
            first_date := ((returnsOf s1 s2).map Prod.fst).headD 0
            last_date := ((returnsOf s1 s2).map Prod.fst).getLastD 0
            trading_days := (combinedData s1 s2).length
            returns1 := column1 (returnsOf s1 s2)
            returns2 := column2 (returnsOf s1 s2) } := by
  unfold calculate at h
  cases hraw : calculateRaw t1 t2 sOpt eOpt now src with
  | error m => rw [hraw] at h; exact absurd h (by simp)
  | ok r0 =>
    rw [hraw] at h
    have hr : r0 = r := by simpa using h
    subst hr
    have hraw2 : calcFromFetches t1 t2 (startUsed sOpt eOpt now).toDateVal
        (endUsed eOpt now).toDateVal
        (fetch_stock_data t1 (src t1 (startUsed sOpt eOpt now) (endUsed eOpt now)))
        (fetch_stock_data t2 (src t2 (startUsed sOpt eOpt now) (endUsed eOpt now)))
        = .ok r0 := hraw
    clear hraw h
    cases hf1 : fetch_stock_data t1
        (src t1 (startUsed sOpt eOpt now) (endUsed eOpt now)) with
    | error m1 =>
      rw [hf1] at hraw2
      exact absurd hraw2 (by simp [calcFromFetches])
    | ok s1 =>
      rw [hf1] at hraw2
      cases hf2 : fetch_stock_data t2
          (src t2 (startUsed sOpt eOpt now) (endUsed eOpt now)) with
      | error m2 =>
        rw [hf2] at hraw2
        exact absurd hraw2 (by simp [calcFromFetches])
      | ok s2 =>
        rw [hf2] at hraw2
        simp only [calcFromFetches] at hraw2
        refine ⟨s1, s2, rfl, rfl, ?_⟩
        split_ifs at hraw2 with h1 h2
        rw [Except.ok.injEq] at hraw2
        push_neg at h2
        exact ⟨not_lt.mp h1, h2.1, h2.2, hraw2.symm⟩

lemma toDateVal_subDays (p : PyDateLike) (n : Int) :
    (p.subDays n).toDateVal = p.toDateVal - n := by
  cases p <;> rfl

lemma calculateRaw_eq (t1 t2 : String) (sOpt eOpt : Option PyDateLike)
    (now : PyDateTime) (src : String → PyDateLike → PyDateLike → FetchOutcome) :
    calculateRaw t1 t2 sOpt eOpt now src =
      calcFromFetches t1 t2 (startUsed sOpt eOpt now).toDateVal (endUsed eOpt now).toDateVal
        (fetch_stock_data t1 (src t1 (startUsed sOpt eOpt now) (endUsed eOpt now)))
        (fetch_stock_data t2 (src t2 (startUsed sOpt eOpt now) (endUsed eOpt now))) := rfl

/-- `calcFromFetches` on two successful fetches, written as its decision
tree. -/
lemma calcFromFetches_ok_ok (t1 t2 : String) (sdv edv : Int)
    (s1 s2 : List (Int × ℚ)) :
    calcFromFetches t1 t2 sdv edv (.ok s1) (.ok s2) =
      if (returnsOf s1 s2).length < 2 then
        .error "Insufficient data points for correlation calculation"
      else if varS (column1 (returnsOf s1 s2)) = 0 ∨ varS (column2 (returnsOf s1 s2)) = 0 then
        .error "Calculation resulted in NaN values"
      else
        .ok { covariance := roundTo 6 (covS (column1 (returnsOf s1 s2)) (column2 (returnsOf s1 s2)))
              start_date := sdv
              end_date := edv
              ticker1 := t1
              ticker2 := t2
              data_points := (returnsOf s1 s2).length
              first_date := ((returnsOf s1 s2).map Prod.fst).headD 0
              last_date := ((returnsOf s1 s2).map Prod.fst).getLastD 0
              trading_days := (combinedData s1 s2).length
              returns1 := column1 (returnsOf s1 s2)
              returns2 := column2 (returnsOf s1 s2) } := rfl

lemma calculate_of_raw_error {t1 t2 : String} {sOpt eOpt : Option PyDateLike}
    {now : PyDateTime} {src : String → PyDateLike → PyDateLike → FetchOutcome}
    {m : String} (h : calculateRaw t1 t2 sOpt eOpt now src = .error m) :
    calculate t1 t2 sOpt eOpt now src = .error ("Calculation error: " ++ m) := by
  unfold calculate
  rw [h]

lemma calculate_of_raw_ok {t1 t2 : String} {sOpt eOpt : Option PyDateLike}
    {now : PyDateTime} {src : String → PyDateLike → PyDateLike → FetchOutcome}
    {r : CalcData} (h : calculateRaw t1 t2 sOpt eOpt now src = .ok r) :
    calculate t1 t2 sOpt eOpt now src = .ok r := by
  unfold calculate
  rw [h]

lemma combinedData_map_fst (s1 s2 : List (Int × ℚ)) :
    (combinedData s1 s2).map Prod.fst =
      sortedUnion (s1.map Prod.fst ++ s2.map Prod.fst) := by
  unfold combinedData
  rw [List.map_map]
  exact List.map_id _

/-! ## The claims -/

/-- C1: `calculate` aligns the two fetched price series by an outer join on
dates (one date-keyed table keeping every date of either series), computes
per-column percentage change, then drops every row with an undefined value;
the surviving pair of return series is effectively inner-joined: both
columns share one date set and one length, a date survives iff both return
cells are defined there (no remaining entry is NaN), and every aligned date
comes from one of the two series. -/
theorem returns_alignment_inner_join (s1 s2 : List (Int × ℚ)) :
    ((∀ d, d ∈ (combinedData s1 s2).map Prod.fst ↔
        d ∈ s1.map Prod.fst ∨ d ∈ s2.map Prod.fst)
    ∧ (returnsOf s1 s2).map (fun row => (row.1, row.2.1)) =
        ((returnsOf s1 s2).map Prod.fst).zip (column1 (returnsOf s1 s2)))
    ∧ ((column1 (returnsOf s1 s2)).length = (column2 (returnsOf s1 s2)).length
    ∧ (∀ d x y, (d, x, y) ∈ returnsOf s1 s2 ↔
        (d, some x, some y) ∈ returnsTable (combinedData s1 s2))
    ∧ ∀ d, d ∈ (returnsOf s1 s2).map Prod.fst →
        d ∈ s1.map Prod.fst ∨ d ∈ s2.map Prod.fst) := by
  constructor
  · constructor
    · intro d
      rw [combinedData_map_fst, mem_sortedUnion, List.mem_append]
    · unfold column1
      induction returnsOf s1 s2 with
      | nil => rfl
      | cons a t ih => simp [ih]
  · refine ⟨by simp [column1, column2], ?_, ?_⟩
    · intro d x y
      exact mem_dropna _ d x y
    · intro d hd
      have hsub : List.Sublist ((returnsOf s1 s2).map Prod.fst)
          ((returnsTable (combinedData s1 s2)).map Prod.fst) :=
        dropna_map_fst_sublist _
      have hd2 : d ∈ (returnsTable (combinedData s1 s2)).map Prod.fst :=
        hsub.subset hd
      rw [returnsTable_map_fst, combinedData_map_fst, mem_sortedUnion,
        List.mem_append] at hd2
      exact hd2

/-- C2: every failure anywhere inside the `calculate` pipeline — the
fetches included — surfaces as the single uniform error kind, the message
being the original one wrapped in the `"Calculation error: "` prefix, and on
failure no result value exists (the outcome is either exactly one result or
exactly one such error). -/
theorem calculate_uniform_error_wrapping (t1 t2 : String)
    (sOpt eOpt : Option PyDateLike) (now : PyDateTime)
    (src : String → PyDateLike → PyDateLike → FetchOutcome) :
    (∃ r, calculate t1 t2 sOpt eOpt now src = .ok r) ∨
    (∃ m, calculate t1 t2 sOpt eOpt now src = .error ("Calculation error: " ++ m)) := by
  cases hraw : calculateRaw t1 t2 sOpt eOpt now src with
  | error m => exact Or.inr ⟨m, calculate_of_raw_error hraw⟩
  | ok r => exact Or.inl ⟨r, calculate_of_raw_ok hraw⟩

/-- C3: an absent `end` defaults to the current moment and an absent
`start` to `end - 365 days`; the metadata fields `start_date`/`end_date`
hold the normalized calendar dates (time-of-day discarded) while the
original, possibly time-bearing values are what the fetcher is queried
with. -/
theorem calculate_date_defaulting (t1 t2 : String) (now : PyDateTime)
    (src : String → PyDateLike → PyDateLike → FetchOutcome) :
    (calculateRaw t1 t2 none none now src =
      calcFromFetches t1 t2 (now.day - 365) now.day
        (fetch_stock_data t1
          (src t1 (.dt ⟨now.day - 365, now.secs⟩) (.dt now)))
        (fetch_stock_data t2
          (src t2 (.dt ⟨now.day - 365, now.secs⟩) (.dt now))))
    ∧ (∀ sdt edt, calculateRaw t1 t2 (some sdt) (some edt) now src =
        calcFromFetches t1 t2 sdt.toDateVal edt.toDateVal
          (fetch_stock_data t1 (src t1 sdt edt))
          (fetch_stock_data t2 (src t2 sdt edt)))
    ∧ (∀ r, calculate t1 t2 none none now src = .ok r →
        r.start_date = now.day - 365 ∧ r.end_date = now.day)
    ∧ (∀ e r, calculate t1 t2 none (some e) now src = .ok r →
        r.start_date = e.toDateVal - 365 ∧ r.end_date = e.toDateVal)
    ∧ (∀ sdt edt r,
        calculate t1 t2 (some (.dt sdt)) (some (.dt edt)) now src = .ok r →
        r.start_date = sdt.day ∧ r.end_date = edt.day) := by
  refine ⟨rfl, fun sdt edt => rfl, ?_, ?_, ?_⟩
  · intro r h
    obtain ⟨s1, s2, _, _, _, _, _, rfl⟩ := calculate_ok_inv _ _ _ _ _ _ _ h
    exact ⟨rfl, rfl⟩
  · intro e r h
    obtain ⟨s1, s2, _, _, _, _, _, rfl⟩ := calculate_ok_inv _ _ _ _ _ _ _ h
    constructor
    · show (startUsed none (some e) now).toDateVal = e.toDateVal - 365
      show ((endUsed (some e) now).subDays 365).toDateVal = e.toDateVal - 365
      rw [toDateVal_subDays]
      rfl
    · rfl
  · intro sdt edt r h
    obtain ⟨s1, s2, _, _, _, _, _, rfl⟩ := calculate_ok_inv _ _ _ _ _ _ _ h
    exact ⟨rfl, rfl⟩

/-- C4: given two successful fetches, `calculate` fails with the
insufficient-data error exactly when fewer than 2 cleaned return rows
remain; with 2 or more rows it proceeds to the statistics (a result or, at
worst, the NaN-validation error). -/
theorem insufficient_data_check (t1 t2 : String) (sOpt eOpt : Option PyDateLike)
    (now : PyDateTime) (src : String → PyDateLike → PyDateLike → FetchOutcome)
    (s1 s2 : List (Int × ℚ))
    (h1 : fetch_stock_data t1 (src t1 (startUsed sOpt eOpt now) (endUsed eOpt now)) = .ok s1)
    (h2 : fetch_stock_data t2 (src t2 (startUsed sOpt eOpt now) (endUsed eOpt now)) = .ok s2) :
    (calculate t1 t2 sOpt eOpt now src =
        .error ("Calculation error: " ++ "Insufficient data points for correlation calculation")
      ↔ (returnsOf s1 s2).length < 2)
    ∧ (2 ≤ (returnsOf s1 s2).length →
        (∃ r, calculate t1 t2 sOpt eOpt now src = .ok r) ∨
        calculate t1 t2 sOpt eOpt now src =
          .error ("Calculation error: " ++ "Calculation resulted in NaN values")) := by
  have hraw : calculateRaw t1 t2 sOpt eOpt now src =
      if (returnsOf s1 s2).length < 2 then
        .error "Insufficient data points for correlation calculation"
      else if varS (column1 (returnsOf s1 s2)) = 0 ∨ varS (column2 (returnsOf s1 s2)) = 0 then
        .error "Calculation resulted in NaN values"
      else
        .ok { covariance := roundTo 6 (covS (column1 (returnsOf s1 s2)) (column2 (returnsOf s1 s2)))
              start_date := (startUsed sOpt eOpt now).toDateVal
              end_date := (endUsed eOpt now).toDateVal
              ticker1 := t1
              ticker2 := t2
              data_points := (returnsOf s1 s2).length
              first_date := ((returnsOf s1 s2).map Prod.fst).headD 0
              last_date := ((returnsOf s1 s2).map Prod.fst).getLastD 0
              trading_days := (combinedData s1 s2).length
              returns1 := column1 (returnsOf s1 s2)
              returns2 := column2 (returnsOf s1 s2) } := by
    rw [calculateRaw_eq, h1, h2, calcFromFetches_ok_ok]
  by_cases hlen : (returnsOf s1 s2).length < 2
  · have hc := calculate_of_raw_error (by rw [hraw, if_pos hlen])
    exact ⟨⟨fun _ => hlen, fun _ => hc⟩, fun hge => absurd hge (by omega)⟩
  · by_cases hvar : varS (column1 (returnsOf s1 s2)) = 0 ∨ varS (column2 (returnsOf s1 s2)) = 0
    · have hc := calculate_of_raw_error (by rw [hraw, if_neg hlen, if_pos hvar])
      refine ⟨⟨fun hEq => ?_, fun hl => absurd hl hlen⟩, fun _ => Or.inr hc⟩
      rw [hc] at hEq
      simp at hEq
    · have hc := calculate_of_raw_ok (by rw [hraw, if_neg hlen, if_neg hvar])
      refine ⟨⟨fun hEq => ?_, fun hl => absurd hl hlen⟩, fun _ => Or.inl ⟨_, hc⟩⟩
      rw [hc] at hEq
      simp at hEq

/-- C5: with two successful fetches and at least 2 cleaned return rows,
`calculate` fails with the NaN-validation error exactly when one of the two
return columns has zero sample variance (the condition under which Pearson
correlation is NaN); a successful result never carries an undefined
statistic — both variances are nonzero, so the correlation's denominator is
nonzero. -/
theorem nan_result_check (t1 t2 : String) (sOpt eOpt : Option PyDateLike)
    (now : PyDateTime) (src : String → PyDateLike → PyDateLike → FetchOutcome)
    (s1 s2 : List (Int × ℚ))
    (h1 : fetch_stock_data t1 (src t1 (startUsed sOpt eOpt now) (endUsed eOpt now)) = .ok s1)
    (h2 : fetch_stock_data t2 (src t2 (startUsed sOpt eOpt now) (endUsed eOpt now)) = .ok s2)
    (hlen : 2 ≤ (returnsOf s1 s2).length) :
    (calculate t1 t2 sOpt eOpt now src =
        .error ("Calculation error: " ++ "Calculation resulted in NaN values")
      ↔ varS (column1 (returnsOf s1 s2)) = 0 ∨ varS (column2 (returnsOf s1 s2)) = 0)
    ∧ (∀ r, calculate t1 t2 sOpt eOpt now src = .ok r →
        varS r.returns1 ≠ 0 ∧ varS r.returns2 ≠ 0 ∧
        Real.sqrt ((varS r.returns1 : ℚ) : ℝ) * Real.sqrt ((varS r.returns2 : ℚ) : ℝ) ≠ 0) := by
  have hraw : calculateRaw t1 t2 sOpt eOpt now src =
      if (returnsOf s1 s2).length < 2 then
        .error "Insufficient data points for correlation calculation"
      else if varS (column1 (returnsOf s1 s2)) = 0 ∨ varS (column2 (returnsOf s1 s2)) = 0 then
        .error "Calculation resulted in NaN values"
      else
        .ok { covariance := roundTo 6 (covS (column1 (returnsOf s1 s2)) (column2 (returnsOf s1 s2)))
              start_date := (startUsed sOpt eOpt now).toDateVal
              end_date := (endUsed eOpt now).toDateVal
              ticker1 := t1
              ticker2 := t2
              data_points := (returnsOf s1 s2).length
              first_date := ((returnsOf s1 s2).map Prod.fst).headD 0
              last_date := ((returnsOf s1 s2).map Prod.fst).getLastD 0
              trading_days := (combinedData s1 s2).length
              returns1 := column1 (returnsOf s1 s2)
              returns2 := column2 (returnsOf s1 s2) } := by
    rw [calculateRaw_eq, h1, h2, calcFromFetches_ok_ok]
  have hnot : ¬ (returnsOf s1 s2).length < 2 := by omega
  constructor
  · by_cases hvar : varS (column1 (returnsOf s1 s2)) = 0 ∨ varS (column2 (returnsOf s1 s2)) = 0
    · have hc := calculate_of_raw_error (by rw [hraw, if_neg hnot, if_pos hvar])
      exact ⟨fun _ => hvar, fun _ => hc⟩
    · have hc := calculate_of_raw_ok (by rw [hraw, if_neg hnot, if_neg hvar])
      refine ⟨fun hEq => ?_, fun hv => absurd hv hvar⟩
      rw [hc] at hEq
      simp at hEq
  · intro r h
    obtain ⟨s1', s2', hf1, hf2, hlen', hv1, hv2, rfl⟩ := calculate_ok_inv _ _ _ _ _ _ _ h
    refine ⟨hv1, hv2, ?_⟩
    have hvx : (0 : ℚ) < varS (column1 (returnsOf s1' s2')) :=
      (varS_nonneg _).lt_of_ne (Ne.symm hv1)
    have hvy : (0 : ℚ) < varS (column2 (returnsOf s1' s2')) :=
      (varS_nonneg _).lt_of_ne (Ne.symm hv2)
    exact ne_of_gt (mul_pos (Real.sqrt_pos.mpr (by exact_mod_cast hvx))
      (Real.sqrt_pos.mpr (by exact_mod_cast hvy)))

/-- C6 counterexample: the claim's two failure conditions do NOT surface as
distinct error kinds.  An empty table (the `DataUnavailable` situation) and
a raised source exception carrying the same text (the `FetchError`
situation) produce the very same error value at the fetcher's boundary, and
the no-data message carries the transport wrapper's prefix. -/
theorem fetcher_error_kinds_cex :
    fetch_stock_data "AAA" (.table true []) =
      fetch_stock_data "AAA" (.raised ("No data found for ticker " ++ "AAA"))
    ∧ fetch_stock_data "AAA" (.table true []) =
      .error ("Error fetching data for " ++ "AAA" ++ ": " ++
        ("No data found for ticker " ++ "AAA")) :=
  ⟨rfl, rfl⟩

/-- C6 (amended): the Fetcher raises on an empty table or missing
adjusted-close column, and raises wrapping any transport exception with the
original message included; however both failures surface as one and the
same error kind — a message carrying the
`"Error fetching data for {ticker}: "` prefix — because the internally
raised no-data error is caught by the same handler, so the two cases are
not distinct kinds at the function boundary. -/
theorem fetcher_failure_modes (t : String) :
    (∀ rows, rows ≠ [] → fetch_stock_data t (.table true rows) = .ok rows)
    ∧ (∀ hasAdjClose rows, rows = [] ∨ hasAdjClose = false →
        fetch_stock_data t (.table hasAdjClose rows) =
          .error ("Error fetching data for " ++ t ++ ": " ++
            ("No data found for ticker " ++ t)))
    ∧ (∀ msg, fetch_stock_data t (.raised msg) =
        .error ("Error fetching data for " ++ t ++ ": " ++ msg)) := by
  refine ⟨?_, ?_, fun msg => rfl⟩
  · intro rows hne
    simp [fetch_stock_data, List.isEmpty_iff, hne]
  · intro hasAdjClose rows hcase
    rcases hcase with rfl | rfl <;> simp [fetch_stock_data]

/-- C10: every failure of `fetch_stock_data` — the no-rows / missing-field
case included — surfaces as the one error kind whose message begins
`"Error fetching data for {ticker}: "`, because the internally raised
no-data error is caught by the function's own handler and re-wrapped; the
no-data failure and a transport failure are therefore indistinguishable by
kind at the boundary, and by the time `calculate` re-raises, the no-data
message has been wrapped twice. -/
theorem fetch_failure_uniform_wrapping (t : String) :
    (∀ src m, fetch_stock_data t src = .error m →
      ∃ m0, m = "Error fetching data for " ++ t ++ ": " ++ m0)
    ∧ (∀ t2 sOpt eOpt now src,
        src t (startUsed sOpt eOpt now) (endUsed eOpt now) = .table true [] →
        calculate t t2 sOpt eOpt now src =
          .error ("Calculation error: " ++ ("Error fetching data for " ++ t ++ ": " ++
            ("No data found for ticker " ++ t)))) := by
  constructor
  · intro src m h
    cases src with
    | raised msg =>
      refine ⟨msg, ?_⟩
      unfold fetch_stock_data at h
      simpa using h.symm
    | table hasAdjClose rows =>
      simp only [fetch_stock_data] at h
      split_ifs at h with hcond
      refine ⟨"No data found for ticker " ++ t, ?_⟩
      simpa using h.symm
  · intro t2 sOpt eOpt now src hsrc
    apply calculate_of_raw_error
    rw [calculateRaw_eq, hsrc]
    rfl

/-- C7: in every successful result, `data_points = trading_days - k` for
some k ≥ 1: the cleaned return rows are always at least one fewer than the
aligned price rows, because the first aligned row has no prior period and
never yields a return. -/
theorem data_points_lag (t1 t2 : String) (sOpt eOpt : Option PyDateLike)
    (now : PyDateTime) (src : String → PyDateLike → PyDateLike → FetchOutcome)
    (r : CalcData) (h : calculate t1 t2 sOpt eOpt now src = .ok r) :
    ∃ k, 1 ≤ k ∧ r.data_points + k = r.trading_days := by
  obtain ⟨s1, s2, hf1, hf2, hlen, hv1, hv2, rfl⟩ := calculate_ok_inv _ _ _ _ _ _ _ h
  have hne : combinedData s1 s2 ≠ [] := by
    intro hnil
    have : (returnsOf s1 s2).length = 0 := by
      unfold returnsOf
      rw [hnil]
      rfl
    omega
  have hk := dropna_returnsTable_length (combinedData s1 s2) hne
  refine ⟨(combinedData s1 s2).length - (returnsOf s1 s2).length, ?_, ?_⟩
  · unfold returnsOf at *
    omega
  · show (returnsOf s1 s2).length + _ = (combinedData s1 s2).length
    unfold returnsOf at *
    omega

/-- C8: in every successful result — defaulted or explicitly dated — the
first cleaned-return date is at most the last one (ISO formatting preserves
this order); and when both `start` and `end` are explicitly provided and
the source honours the requested range, both dates also fall inside
[start_date, end_date]. -/
theorem result_dates_in_range (t1 t2 : String) (sOpt eOpt : Option PyDateLike)
    (now : PyDateTime) (src : String → PyDateLike → PyDateLike → FetchOutcome)
    (r : CalcData) (h : calculate t1 t2 sOpt eOpt now src = .ok r) :
    r.first_date ≤ r.last_date
    ∧ ∀ sdt edt s1 s2, sOpt = some sdt → eOpt = some edt →
        fetch_stock_data t1 (src t1 sdt edt) = .ok s1 →
        fetch_stock_data t2 (src t2 sdt edt) = .ok s2 →
        (∀ p ∈ s1, sdt.toDateVal ≤ p.1 ∧ p.1 ≤ edt.toDateVal) →
        (∀ p ∈ s2, sdt.toDateVal ≤ p.1 ∧ p.1 ≤ edt.toDateVal) →
        r.start_date ≤ r.first_date ∧ r.last_date ≤ r.end_date := by
  obtain ⟨s1', s2', hf1, hf2, hlen, hv1, hv2, rfl⟩ := calculate_ok_inv _ _ _ _ _ _ _ h
  have hU : (returnsTable (combinedData s1' s2')).map Prod.fst =
      sortedUnion (s1'.map Prod.fst ++ s2'.map Prod.fst) := by
    rw [returnsTable_map_fst, combinedData_map_fst]
  have hsub : List.Sublist ((returnsOf s1' s2').map Prod.fst)
      (sortedUnion (s1'.map Prod.fst ++ s2'.map Prod.fst)) := by
    rw [← hU]
    exact dropna_map_fst_sublist _
  have hsorted : ((returnsOf s1' s2').map Prod.fst).Pairwise (· < ·) :=
    (sortedUnion_pairwise (s1'.map Prod.fst ++ s2'.map Prod.fst)).sublist hsub
  have hne : (returnsOf s1' s2').map Prod.fst ≠ [] := by
    intro hnil
    have hl := congrArg List.length hnil
    rw [List.length_map] at hl
    simp only [List.length_nil] at hl
    omega
  refine ⟨sorted_headD_le_getLastD _ hsorted hne, ?_⟩
  intro sdt edt s1 s2 hs he h1 h2 hr1 hr2
  subst hs
  subst he
  have hs1 : s1' = s1 := by
    have := hf1.symm.trans h1
    simpa using this
  have hs2 : s2' = s2 := by
    have := hf2.symm.trans h2
    simpa using this
  subst hs1
  subst hs2
  have hbound : ∀ d ∈ (returnsOf s1' s2').map Prod.fst,
      sdt.toDateVal ≤ d ∧ d ≤ edt.toDateVal := by
    intro d hd
    have hdU := hsub.subset hd
    rw [mem_sortedUnion, List.mem_append] at hdU
    rcases hdU with hdm | hdm
    · rcases List.mem_map.mp hdm with ⟨p, hp, rfl⟩
      exact hr1 p hp
    · rcases List.mem_map.mp hdm with ⟨p, hp, rfl⟩
      exact hr2 p hp
  constructor
  · show (startUsed (some sdt) (some edt) now).toDateVal ≤
      ((returnsOf s1' s2').map Prod.fst).headD 0
    exact (hbound _ (headD_mem _ _ hne)).1
  · show ((returnsOf s1' s2').map Prod.fst).getLastD 0 ≤
      (endUsed (some edt) now).toDateVal
    exact (hbound _ (getLastD_mem _ _ hne)).2

/-- C9: every successful result satisfies the Cauchy-Schwarz bound — the
squared sample covariance of the cleaned return columns is at most the
product of their variances — so the Pearson correlation, rounded to 4
decimal places (the result's `correlation` entry), lies in [-1.0, 1.0]; the
`covariance` entry is the (finite) rounded rational sample covariance. -/
theorem correlation_bounded (t1 t2 : String) (sOpt eOpt : Option PyDateLike)
    (now : PyDateTime) (src : String → PyDateLike → PyDateLike → FetchOutcome)
    (r : CalcData) (h : calculate t1 t2 sOpt eOpt now src = .ok r) :
    (covS r.returns1 r.returns2) ^ 2 ≤ varS r.returns1 * varS r.returns2
    ∧ -1 ≤ resultCorrelation r ∧ resultCorrelation r ≤ 1
    ∧ r.covariance = roundTo 6 (covS r.returns1 r.returns2) := by
  obtain ⟨s1, s2, hf1, hf2, hlen, hv1, hv2, rfl⟩ := calculate_ok_inv _ _ _ _ _ _ _ h
  have hlencols : (column1 (returnsOf s1 s2)).length = (column2 (returnsOf s1 s2)).length := by
    simp [column1, column2]
  refine ⟨covS_sq_le_varS_mul _ _ hlencols, ?_⟩
  have habs : |pearsonCorr (column1 (returnsOf s1 s2)) (column2 (returnsOf s1 s2))| ≤ 1 :=
    pearson_abs_le_one _ _ hlencols hv1 hv2
  have hround := roundToR_abs_le _ habs
  rcases abs_le.mp hround with ⟨hlo, hhi⟩
  exact ⟨hlo, hhi, rfl⟩

/-! ## Concrete runs (witness data) -/

/-- A concrete price source: three trading days of fully overlapping data,
`BBB` at half of `AAA`, with non-constant returns. -/
def srcGood : String → PyDateLike → PyDateLike → FetchOutcome :=
  fun t _ _ =>
    if t = "AAA" then .table true [(0, 4), (1, 8), (2, 24)]
    else .table true [(0, 2), (1, 4), (2, 12)]

/-- A concrete price source whose first ticker has a constant price
(zero-variance returns). -/
def srcConst : String → PyDateLike → PyDateLike → FetchOutcome :=
  fun t _ _ =>
    if t = "AAA" then .table true [(0, 5), (1, 5), (2, 5)]
    else .table true [(0, 2), (1, 4), (2, 12)]

/-- A concrete price source with only two trading days (a single return
row). -/
def srcShort : String → PyDateLike → PyDateLike → FetchOutcome :=
  fun t _ _ =>
    if t = "AAA" then .table true [(0, 1), (1, 2)]
    else .table true [(0, 1), (1, 3)]

/-- A concrete price source returning an empty table for every query. -/
def srcEmpty : String → PyDateLike → PyDateLike → FetchOutcome :=
  fun _ _ _ => .table true []

/-- A concrete current moment: day 1000, 120 seconds past midnight. -/
def nowEx : PyDateTime := ⟨1000, 120⟩

/-- The result of a successful `srcGood` run, as a function of the
normalized metadata dates. -/
def rGoodAt (sdv edv : Int) : CalcData :=
  { covariance := 1 / 2
    start_date := sdv
    end_date := edv
    ticker1 := "AAA"
    ticker2 := "BBB"
    data_points := 2
    first_date := 1
    last_date := 2
    trading_days := 3
    returns1 := [1, 2]
    returns2 := [1, 2] }

lemma dropGoodEval :
    dropna (returnsTable (combinedData [(0, (4:ℚ)), (1, 8), (2, 24)]
      [(0, 2), (1, 4), (2, 12)])) = [(1, 1, 1), (2, 2, 2)] := by
  norm_num [dropna, returnsTable, combinedData, sortedUnion, insertDate, lookupD,
    pctChangeCol, ffill, pctCell, List.filterMap_cons]

lemma calcFromFetchesGood (sdv edv : Int) :
    calcFromFetches "AAA" "BBB" sdv edv (.ok [(0, 4), (1, 8), (2, 24)])
      (.ok [(0, 2), (1, 4), (2, 12)]) = .ok (rGoodAt sdv edv) := by
  simp only [calcFromFetches, dropGoodEval]
  norm_num [varS, covS, mean, roundTo, round_eq, rGoodAt, combinedData, sortedUnion,
    insertDate, lookupD]

lemma calcGoodEval :
    calculate "AAA" "BBB" none none nowEx srcGood = .ok (rGoodAt 635 1000) := by
  have h : calculateRaw "AAA" "BBB" none none nowEx srcGood =
      calcFromFetches "AAA" "BBB" 635 1000 (.ok [(0, 4), (1, 8), (2, 24)])
        (.ok [(0, 2), (1, 4), (2, 12)]) := rfl
  exact calculate_of_raw_ok (h.trans (calcFromFetchesGood 635 1000))

lemma calcGoodEval2 :
    calculate "AAA" "BBB" (some (.dt ⟨0, 30⟩)) (some (.dt ⟨2, 45⟩)) nowEx srcGood =
      .ok (rGoodAt 0 2) := by
  have h : calculateRaw "AAA" "BBB" (some (.dt ⟨0, 30⟩)) (some (.dt ⟨2, 45⟩)) nowEx srcGood =
      calcFromFetches "AAA" "BBB" 0 2 (.ok [(0, 4), (1, 8), (2, 24)])
        (.ok [(0, 2), (1, 4), (2, 12)]) := rfl
  exact calculate_of_raw_ok (h.trans (calcFromFetchesGood 0 2))

lemma dropConstEval :
    dropna (returnsTable (combinedData [(0, (5:ℚ)), (1, 5), (2, 5)]
      [(0, 2), (1, 4), (2, 12)])) = [(1, 0, 1), (2, 0, 2)] := by
  norm_num [dropna, returnsTable, combinedData, sortedUnion, insertDate, lookupD,
    pctChangeCol, ffill, pctCell, List.filterMap_cons]

lemma dropShortEval :
    dropna (returnsTable (combinedData [(0, (1:ℚ)), (1, 2)] [(0, 1), (1, 3)])) =
      [(1, 1, 2)] := by
  norm_num [dropna, returnsTable, combinedData, sortedUnion, insertDate, lookupD,
    pctChangeCol, ffill, pctCell, List.filterMap_cons]

/-! ## Witnesses -/

/-- C3 witness: a concrete defaulted run has `start_date = now - 365 days`
and `end_date = now`, and a concrete explicitly-dated run has the provided
calendar days with time-of-day discarded. -/
theorem calculate_date_defaulting_witness :
    ((rGoodAt 635 1000).start_date = nowEx.day - 365 ∧
      (rGoodAt 635 1000).end_date = nowEx.day)
    ∧ ((rGoodAt 0 2).start_date = (⟨0, 30⟩ : PyDateTime).day ∧
      (rGoodAt 0 2).end_date = (⟨2, 45⟩ : PyDateTime).day) :=
  ⟨(calculate_date_defaulting "AAA" "BBB" nowEx srcGood).2.2.1 _ calcGoodEval,
   (calculate_date_defaulting "AAA" "BBB" nowEx srcGood).2.2.2.2 ⟨0, 30⟩ ⟨2, 45⟩ _ calcGoodEval2⟩

/-- C4 witness: a concrete run with a single return row fails with the
wrapped insufficient-data error. -/
theorem insufficient_data_check_witness :
    calculate "AAA" "BBB" none none nowEx srcShort =
      .error ("Calculation error: " ++ "Insufficient data points for correlation calculation") :=
  (insufficient_data_check "AAA" "BBB" none none nowEx srcShort
    [(0, 1), (1, 2)] [(0, 1), (1, 3)] rfl rfl).1.mpr
    (by rw [returnsOf, dropShortEval]; norm_num)

/-- C5 witness: a concrete run with one constant-price ticker (zero
return variance) fails with the wrapped NaN-validation error. -/
theorem nan_result_check_witness :
    calculate "AAA" "BBB" none none nowEx srcConst =
      .error ("Calculation error: " ++ "Calculation resulted in NaN values") :=
  (nan_result_check "AAA" "BBB" none none nowEx srcConst
    [(0, 5), (1, 5), (2, 5)] [(0, 2), (1, 4), (2, 12)] rfl rfl
    (by rw [returnsOf, dropConstEval]; norm_num)).1.mpr
    (Or.inl (by rw [returnsOf, dropConstEval]; norm_num [column1, varS, covS, mean]))

/-- C6 witness: a concrete nonempty table is returned as-is, and a concrete
missing-column table raises the wrapped no-data error. -/
theorem fetcher_failure_modes_witness :
    fetch_stock_data "AAA" (.table true [(0, 2)]) = .ok [(0, 2)]
    ∧ fetch_stock_data "AAA" (.table false [(0, 2)]) =
        .error ("Error fetching data for " ++ "AAA" ++ ": " ++
          ("No data found for ticker " ++ "AAA")) :=
  ⟨(fetcher_failure_modes "AAA").1 [(0, 2)] (List.cons_ne_nil _ _),
   (fetcher_failure_modes "AAA").2.1 false [(0, 2)] (Or.inr rfl)⟩

/-- C7 witness: the concrete successful run has 2 data points against 3
trading days (k = 1). -/
theorem data_points_lag_witness :
    ∃ k, 1 ≤ k ∧ (rGoodAt 635 1000).data_points + k = (rGoodAt 635 1000).trading_days :=
  data_points_lag "AAA" "BBB" none none nowEx srcGood _ calcGoodEval

/-- C8 witness: in the concrete explicitly-dated run, first/last dates are
ordered and inside the requested range. -/
theorem result_dates_in_range_witness :
    (rGoodAt 0 2).first_date ≤ (rGoodAt 0 2).last_date ∧
    (rGoodAt 0 2).start_date ≤ (rGoodAt 0 2).first_date ∧
    (rGoodAt 0 2).last_date ≤ (rGoodAt 0 2).end_date :=
  ⟨(result_dates_in_range "AAA" "BBB" (some (.dt ⟨0, 30⟩)) (some (.dt ⟨2, 45⟩))
      nowEx srcGood _ calcGoodEval2).1,
   (result_dates_in_range "AAA" "BBB" (some (.dt ⟨0, 30⟩)) (some (.dt ⟨2, 45⟩))
      nowEx srcGood _ calcGoodEval2).2 (.dt ⟨0, 30⟩) (.dt ⟨2, 45⟩)
      [(0, 4), (1, 8), (2, 24)] [(0, 2), (1, 4), (2, 12)]
      rfl rfl rfl rfl (by decide) (by decide)⟩

/-- C9 witness: the concrete successful run satisfies the covariance,
correlation and rounding bounds. -/
theorem correlation_bounded_witness :
    (covS (rGoodAt 635 1000).returns1 (rGoodAt 635 1000).returns2) ^ 2 ≤
      varS (rGoodAt 635 1000).returns1 * varS (rGoodAt 635 1000).returns2
    ∧ -1 ≤ resultCorrelation (rGoodAt 635 1000) ∧ resultCorrelation (rGoodAt 635 1000) ≤ 1
    ∧ (rGoodAt 635 1000).covariance =
      roundTo 6 (covS (rGoodAt 635 1000).returns1 (rGoodAt 635 1000).returns2) :=
  correlation_bounded "AAA" "BBB" none none nowEx srcGood _ calcGoodEval

/-- C10 witness: a concrete transport failure carries the uniform prefix,
and a concrete empty-table run reaches `calculate`'s caller with the
no-data message wrapped twice. -/
theorem fetch_failure_uniform_wrapping_witness :
    (∃ m0, "Error fetching data for " ++ "AAA" ++ ": " ++ "boom" =
      "Error fetching data for " ++ "AAA" ++ ": " ++ m0)
    ∧ calculate "AAA" "BBB" none none nowEx srcEmpty =
      .error ("Calculation error: " ++ ("Error fetching data for " ++ "AAA" ++ ": " ++
        ("No data found for ticker " ++ "AAA"))) :=
  ⟨(fetch_failure_uniform_wrapping "AAA").1 (.raised "boom") _ rfl,
   (fetch_failure_uniform_wrapping "AAA").2 "BBB" none none nowEx srcEmpty rfl⟩

end QuantSandbox
